import Mathlib

/-!
Shallow embedding of the `http-auth-interceptor` AngularJS module
(src/src/http-auth-interceptor.js): the `httpBuffer` service (`append`,
`rejectAll`, `retryAll`, `retryHttpRequest`), the `authService` terminal
actions (`loginConfirmed`, `loginCancelled`) and the `$http` interceptor
hooks (`request`, `responseError`).

Modelling choices:
* JavaScript values that are only inspected for truthiness (the `reason`
  argument of `rejectAll`, the `ignoreAuthModule` config flag) are embedded
  as `JSVal` with an explicit `truthy` predicate mirroring JS coercion.
* An AngularJS `$q` deferred is identified by a natural number; its state
  lives in a map `Nat → DState`.  `resolve`/`reject` on a settled deferred
  is a no-op, as in `$q`.
* Side effects observable by the host ( `$rootScope.$broadcast`, the
  `$http(config)` transport call, deferred settlements) are recorded in an
  event trace.  An `httpIssue` event additionally records the buffer
  contents at the moment the transport call is initiated, so that temporal
  claims about clearing-versus-issuing can be stated.
* A possibly-absent function argument (JS `undefined`) is an `Option`;
  calling an absent function is a thrown `TypeError`, embedded as
  `Except.error`.
-/

namespace HttpAuth

/-- JSVal models the JavaScript values the module inspects only for
truthiness: undefined, null, booleans, (integer) numbers, strings and
(always-truthy) object references. -/
inductive JSVal where
  | undef
  | null
  | bool (b : Bool)
  | num (n : Int)
  | str (s : String)
  | obj (id : Nat)
deriving DecidableEq

/-- truthy mirrors JavaScript boolean coercion on the embedded values:
undefined, null, false, 0 and the empty string are falsy, everything else
is truthy. -/
def truthy : JSVal → Bool
  | .undef => false
  | .null => false
  | .bool b => b
  | .num n => !(n == 0)
  | .str s => !(s == "")
  | .obj _ => true

/-- Config embeds an `$http` request configuration object.  The module
reads only the `ignoreAuthModule` flag; `tag` stands for all the fields it
treats as opaque (method, url, headers, ...). -/
structure Config where
  ignoreAuthModule : JSVal := .undef
  tag : Nat := 0
deriving DecidableEq

/-- emptyConfig embeds the object literal used in
`var config = rejection.config || \x7b\x7d;`. -/
def emptyConfig : Config := {}

/-- Rejection embeds a failed `$http` response: its `status`, its optional
`config` and an opaque remainder. -/
structure Rejection where
  status : Int
  config : Option Config := none
  tag : Nat := 0
deriving DecidableEq

/-- Payload of a `$rootScope.$broadcast` call: the auth events carry the
rejection object, the login events carry the caller-supplied `data`. -/
inductive Payload where
  | rej (r : Rejection)
  | dat (d : JSVal)
deriving DecidableEq

/-- Entry is one buffered request: the object
`\x7b config: config, deferred: deferred \x7d` pushed by `append`, with the
deferred represented by its identifier. -/
structure Entry where
  config : Config
  deferred : Nat
deriving DecidableEq

/-- DVal is a value a deferred can be rejected with: a transport response
(error callback) or a raw rejection reason (from `rejectAll`). -/
inductive DVal where
  | resp (r : Nat)
  | reasonV (j : JSVal)
deriving DecidableEq

/-- DState is the lifecycle state of one `$q` deferred. -/
inductive DState where
  | pending
  | resolved (r : Nat)
  | rejected (v : DVal)
deriving DecidableEq

/-- Ev is one observable side effect: a broadcast, a transport call
(recording the buffer contents at the moment `$http(config)` is invoked),
or a deferred settlement. -/
inductive Ev where
  | broadcast (name : String) (p : Payload)
  | httpIssue (c : Config) (d : Nat) (bufAtIssue : List Entry)
  | rejectEv (d : Nat) (v : DVal)
  | resolveEv (d : Nat) (r : Nat)
deriving DecidableEq

/-- St is the module state: the private `buffer` array of the
`httpBuffer` factory, the states of all deferreds, a fresh-deferred
counter for `$q.defer()`, and the trace of observable effects. -/
structure St where
  buffer : List Entry
  dstates : Nat → DState
  nextD : Nat
  trace : List Ev

/-- setD updates the deferred-state map at one identifier. -/
def setD (f : Nat → DState) (i : Nat) (s : DState) : Nat → DState :=
  fun j => if j = i then s else f j

/-- doResolve embeds `deferred.resolve(response)`: settles the deferred if
it is still pending, otherwise is a no-op (as in `$q`). -/
def doResolve (d : Nat) (r : Nat) (st : St) : St :=
  if st.dstates d = .pending then
    { st with dstates := setD st.dstates d (.resolved r),
              trace := st.trace ++ [.resolveEv d r] }
  else st

/-- doReject embeds `deferred.reject(v)`: settles the deferred if it is
still pending, otherwise is a no-op (as in `$q`). -/
def doReject (d : Nat) (v : DVal) (st : St) : St :=
  if st.dstates d = .pending then
    { st with dstates := setD st.dstates d (.rejected v),
              trace := st.trace ++ [.rejectEv d v] }
  else st

/-- bcast embeds `$rootScope.$broadcast(name, payload)`. -/
def bcast (name : String) (p : Payload) (st : St) : St :=
  { st with trace := st.trace ++ [.broadcast name p] }

/-- retryHttpRequest embeds the synchronous part of
`function retryHttpRequest(config, deferred)`: it initiates
`$http(config)` with its success/error callbacks bound to `deferred`.
The recorded event keeps the buffer contents at the moment of the call.
The callbacks run later, when the transport completes: see `deliver`. -/
def retryHttpRequest (c : Config) (d : Nat) (st : St) : St :=
  { st with trace := st.trace ++ [.httpIssue c d st.buffer] }

/-- TOutcome is the eventual outcome of one transport call. -/
inductive TOutcome where
  | success (r : Nat)
  | failure (r : Nat)
deriving DecidableEq

/-- deliver embeds the transport completing a call issued by
`retryHttpRequest`: `successCallback` resolves the bound deferred,
`errorCallback` rejects it with the failed response. -/
def deliver (d : Nat) (out : TOutcome) (st : St) : St :=
  match out with
  | .success r => doResolve d r st
  | .failure r => doReject d (.resp r) st

/-- append embeds `httpBuffer.append(config, deferred)`: pushes
`\x7b config: config, deferred: deferred \x7d` at the tail of the buffer. -/
def append (c : Config) (d : Nat) (st : St) : St :=
  { st with buffer := st.buffer ++ [⟨c, d⟩] }

/-- rejectLoop embeds the `for` loop of `rejectAll`:
`for (var i = 0; i < buffer.length; ++i) buffer[i].deferred.reject(reason);`.
`deferred.reject` has no synchronous effect on the buffer, so iterating
the entry list taken at loop entry is faithful. -/
def rejectLoop (reason : JSVal) : List Entry → St → St
  | [], st => st
  | e :: es, st => rejectLoop reason es (doReject e.deferred (.reasonV reason) st)

/-- rejectAll embeds `httpBuffer.rejectAll(reason)`: `if (reason)` — a
truthiness test — reject every buffered deferred with `reason` in order;
then in either case `buffer = [];`. -/
def rejectAll (reason : JSVal) (st : St) : St :=
  let st1 := if truthy reason then rejectLoop reason st.buffer st else st
  { st1 with buffer := [] }

/-- issueLoop embeds the `for` loop of `retryAll` for an updater with no
synchronous side effect on the buffer:
`for (var i = 0; i < buffer.length; ++i)
   retryHttpRequest(updater(buffer[i].config), buffer[i].deferred);`.
Since such an updater leaves the buffer unchanged, iterating the entry
list taken at loop entry is faithful; see `retryAllLive` for the general
live-buffer semantics. -/
def issueLoop (updater : Config → Config) : List Entry → St → St
  | [], st => st
  | e :: es, st => issueLoop updater es (retryHttpRequest (updater e.config) e.deferred st)

/-- retryAll embeds `httpBuffer.retryAll(updater)` for a pure updater
function: run the replay loop over the buffer, then `buffer = [];` after
the loop. -/
def retryAll (updater : Config → Config) (st : St) : St :=
  let st1 := issueLoop updater st.buffer st
  { st1 with buffer := [] }

/-- retryAllJS embeds `httpBuffer.retryAll` as callable from JavaScript,
where the `updater` argument may be `undefined` (`none`).  With a
function argument the body never throws.  With `undefined` and a
non-empty buffer, the first iteration evaluates
`updater(buffer[0].config)` which throws `TypeError`, propagated to the
caller with the buffer untouched; with an empty buffer the loop body
never runs and the buffer is (re)assigned `[]`. -/
def retryAllJS (updater : Option (Config → Config)) (st : St) : Except String St :=
  match updater with
  | some f => .ok (retryAll f st)
  | none =>
    match st.buffer with
    | [] => .ok { st with buffer := [] }
    | _ :: _ => .error "TypeError: updater is not a function"

/-- rejectAllJS embeds `httpBuffer.rejectAll` as callable from
JavaScript: its body only truthiness-tests `reason`, calls
`deferred.reject` and assigns `buffer = []`, none of which can throw, so
it returns normally for every argument and state. -/
def rejectAllJS (reason : JSVal) (st : St) : Except String St :=
  .ok (rejectAll reason st)

/-- retryAllLive embeds the `retryAll` loop with the live-buffer JS
semantics, for an updater whose call may synchronously append entries to
the buffer (the second component of its result): each iteration
re-checks `i < buffer.length` against the current buffer, evaluates
`updater(buffer[i].config)` (growing the buffer by the appended entries),
then initiates the transport call; after the loop exits, `buffer = [];`.
Such a loop need not terminate (an updater that always appends keeps it
running), so the recursion is bounded by explicit `fuel`; `none` means
the fuel ran out before the loop exited. -/
def retryAllLive (updater : Config → Config × List Entry) :
    Nat → Nat → St → Option St
  | 0, _, _ => none
  | fuel + 1, i, st =>
    if h : i < st.buffer.length then
      let e := st.buffer.get ⟨i, h⟩
      let r := updater e.config
      let st1 := { st with buffer := st.buffer ++ r.2 }
      retryAllLive updater fuel (i + 1) (retryHttpRequest r.1 e.deferred st1)
    else
      some { st with buffer := [] }

/-- RespErrResult is the value returned by the `responseError` hook to
the `$http` machinery: either `$q.reject(rejection)` (the failure passes
through unchanged) or `deferred.promise` of a freshly parked deferred. -/
inductive RespErrResult where
  | rejectedWith (r : Rejection)
  | promiseOf (d : Nat)
deriving DecidableEq

/-- responseError embeds the interceptor's `responseError(rejection)`
hook, with the currently installed `responseErrorFilter` passed
explicitly: filtered-out rejections pass through; otherwise
`config = rejection.config || \x7b\x7d` and, unless
`config.ignoreAuthModule` is truthy, the status is switched on — 400
parks the request and broadcasts `event:auth-missingParameter`, 401
parks and broadcasts `event:auth-loginRequired`, 403 broadcasts
`event:auth-forbidden` and falls through; every non-parking path returns
`$q.reject(rejection)`. -/
def responseError (responseErrorFilter : Rejection → Bool)
    (rejection : Rejection) (st : St) : St × RespErrResult :=
  if !responseErrorFilter rejection then
    (st, .rejectedWith rejection)
  else
    let config := rejection.config.getD emptyConfig
    if !truthy config.ignoreAuthModule then
      if rejection.status = 400 then
        let d := st.nextD
        let st1 := { st with nextD := st.nextD + 1,
                             dstates := setD st.dstates d .pending }
        let st2 := append config d st1
        let st3 := bcast "event:auth-missingParameter" (.rej rejection) st2
        (st3, .promiseOf d)
      else if rejection.status = 401 then
        let d := st.nextD
        let st1 := { st with nextD := st.nextD + 1,
                             dstates := setD st.dstates d .pending }
        let st2 := append config d st1
        let st3 := bcast "event:auth-loginRequired" (.rej rejection) st2
        (st3, .promiseOf d)
      else if rejection.status = 403 then
        (bcast "event:auth-forbidden" (.rej rejection) st, .rejectedWith rejection)
      else
        (st, .rejectedWith rejection)
    else
      (st, .rejectedWith rejection)

/-- request embeds the interceptor's `request(config)` hook with the
currently installed filter and preprocessor passed explicitly: filtered
out requests pass through, the rest are preprocessed. -/
def request (requestFilter : Config → Bool)
    (requestPreprocessor : Config → Config) (config : Config) : Config :=
  if !requestFilter config then config else requestPreprocessor config

/-- loginConfirmed embeds `authService.loginConfirmed(data, configUpdater)`:
`var updater = configUpdater || function(config) \x7breturn config;\x7d;`
then broadcast `event:auth-loginConfirmed` with `data`, then
`httpBuffer.retryAll(updater)`. -/
def loginConfirmed (data : JSVal) (configUpdater : Option (Config → Config))
    (st : St) : St :=
  let updater := configUpdater.getD (fun config => config)
  let st1 := bcast "event:auth-loginConfirmed" (.dat data) st
  retryAll updater st1

/-- loginCancelled embeds `authService.loginCancelled(data, reason)`:
`httpBuffer.rejectAll(reason)` first, then broadcast
`event:auth-loginCancelled` with `data`. -/
def loginCancelled (data : JSVal) (reason : JSVal) (st : St) : St :=
  let st1 := rejectAll reason st
  bcast "event:auth-loginCancelled" (.dat data) st1

/-- applySteps applies a sequence of further `responseError` invocations
(each with its then-installed filter and its rejection) to the state,
discarding the per-call results.  These are the non-terminal operations
that can run while a parked request waits for a coordinator action. -/
def applySteps : List ((Rejection → Bool) × Rejection) → St → St
  | [], st => st
  | s :: ss, st => applySteps ss (responseError s.1 s.2 st).1

/-- throwsB observes whether an embedded JavaScript call threw. -/
def throwsB : Except String St → Bool
  | .error _ => true
  | .ok _ => false

/-! Helper lemmas about the buffer operations. -/

/-- issueLoop_spec: the replay loop leaves buffer, deferred states and the
counter unchanged and appends one `httpIssue` event per processed entry,
in order, each recording the buffer as it was at loop entry. -/
theorem issueLoop_spec (u : Config → Config) (l : List Entry) (st : St) :
    issueLoop u l st
      = { st with trace := st.trace
            ++ l.map (fun e => Ev.httpIssue (u e.config) e.deferred st.buffer) } := by
  induction l generalizing st with
  | nil => simp [issueLoop]
  | cons e es ih =>
    cases st with
    | mk b ds nd tr =>
      simp [issueLoop, retryHttpRequest, ih, List.append_assoc]

/-- retryAll_spec: `retryAll` with a pure updater issues one transport
call per buffered entry in insertion order, each initiated while the full
original buffer is still in place, and returns with the buffer empty. -/
theorem retryAll_spec (u : Config → Config) (st : St) :
    retryAll u st
      = { st with buffer := [],
                  trace := st.trace
                    ++ st.buffer.map
                        (fun e => Ev.httpIssue (u e.config) e.deferred st.buffer) } := by
  cases st with
  | mk b ds nd tr => simp [retryAll, issueLoop_spec]

/-- rejectLoop_spec: over a list of pairwise-distinct, still-pending
entries, the reject loop leaves buffer and counter unchanged, appends one
`rejectEv` per entry in order, rejects exactly those deferreds with the
reason, and touches no other deferred. -/
theorem rejectLoop_spec (reason : JSVal) (l : List Entry) (st : St)
    (hd : l.Pairwise (fun a b => a.deferred ≠ b.deferred))
    (hp : ∀ e ∈ l, st.dstates e.deferred = .pending) :
    (rejectLoop reason l st).buffer = st.buffer ∧
    (rejectLoop reason l st).nextD = st.nextD ∧
    (rejectLoop reason l st).trace
      = st.trace ++ l.map (fun e => Ev.rejectEv e.deferred (.reasonV reason)) ∧
    (∀ d, (∀ e ∈ l, e.deferred ≠ d) →
      (rejectLoop reason l st).dstates d = st.dstates d) ∧
    (∀ e ∈ l, (rejectLoop reason l st).dstates e.deferred
      = .rejected (.reasonV reason)) := by
  induction l generalizing st with
  | nil => simp [rejectLoop]
  | cons e es ih =>
    have hpe : st.dstates e.deferred = .pending := hp e (List.mem_cons_self e es)
    have hstep : doReject e.deferred (.reasonV reason) st
        = { st with dstates := setD st.dstates e.deferred (.rejected (.reasonV reason)),
                    trace := st.trace ++ [Ev.rejectEv e.deferred (.reasonV reason)] } := by
      simp [doReject, hpe]
    have hne : ∀ e2 ∈ es, e2.deferred ≠ e.deferred := by
      intro e2 h2
      exact fun hEq => (List.rel_of_pairwise_cons hd h2) hEq.symm
    have hp' : ∀ e2 ∈ es,
        (doReject e.deferred (.reasonV reason) st).dstates e2.deferred = .pending := by
      intro e2 h2
      rw [hstep]
      simp only [setD]
      rw [if_neg (hne e2 h2)]
      exact hp e2 (List.mem_cons_of_mem e h2)
    obtain ⟨hb, hn, ht, hf, hr⟩ :=
      ih (doReject e.deferred (.reasonV reason) st) (List.Pairwise.of_cons hd) hp'
    refine ⟨?_, ?_, ?_, ?_, ?_⟩
    · rw [rejectLoop, hb, hstep]
    · rw [rejectLoop, hn, hstep]
    · rw [rejectLoop, ht, hstep]
      simp [List.append_assoc]
    · intro d hdall
      rw [rejectLoop, hf d (fun e2 h2 => hdall e2 (List.mem_cons_of_mem e h2)), hstep]
      simp only [setD]
      rw [if_neg]
      intro hEq
      exact hdall e (List.mem_cons_self e es) hEq.symm
    · intro e2 h2
      rcases List.mem_cons.mp h2 with h2 | h2
      · subst h2
        rw [rejectLoop, hf e2.deferred (fun e3 h3 => hne e3 h3), hstep]
        simp [setD]
      · exact hr e2 h2

/-- rejectAll_falsy: with a falsy reason the `if (reason)` branch is
skipped, so `rejectAll` only clears the buffer. -/
theorem rejectAll_falsy (reason : JSVal) (st : St) (ht : truthy reason = false) :
    rejectAll reason st = { st with buffer := [] } := by
  simp [rejectAll, ht]

/-- rejectAll_truthy: with a truthy reason and pairwise-distinct pending
entries, `rejectAll` rejects every buffered deferred with the reason in
insertion order, touches no other deferred, and clears the buffer. -/
theorem rejectAll_truthy (reason : JSVal) (st : St) (ht : truthy reason = true)
    (hd : st.buffer.Pairwise (fun a b => a.deferred ≠ b.deferred))
    (hp : ∀ e ∈ st.buffer, st.dstates e.deferred = .pending) :
    (rejectAll reason st).buffer = [] ∧
    (rejectAll reason st).nextD = st.nextD ∧
    (rejectAll reason st).trace
      = st.trace ++ st.buffer.map (fun e => Ev.rejectEv e.deferred (.reasonV reason)) ∧
    (∀ d, (∀ e ∈ st.buffer, e.deferred ≠ d) →
      (rejectAll reason st).dstates d = st.dstates d) ∧
    (∀ e ∈ st.buffer, (rejectAll reason st).dstates e.deferred
      = .rejected (.reasonV reason)) := by
  obtain ⟨hb, hn, htr, hf, hr⟩ := rejectLoop_spec reason st.buffer st hd hp
  refine ⟨by simp [rejectAll, ht], ?_, ?_, ?_, ?_⟩ <;>
    simp only [rejectAll, ht, if_true]
  · exact hn
  · exact htr
  · exact hf
  · exact hr

/-- responseError_park: characterisation of the 400/401 parking branches
of `responseError` under an accepting filter and a non-truthy
`ignoreAuthModule`: a fresh pending deferred is allocated, the entry is
appended at the tail, the matching event is broadcast, and the fresh
deferred's promise is returned. -/
theorem responseError_park (filt : Rejection → Bool) (rejection : Rejection) (st : St)
    (hf : filt rejection = true)
    (hi : truthy (rejection.config.getD emptyConfig).ignoreAuthModule = false)
    (hs : rejection.status = 400 ∨ rejection.status = 401) :
    responseError filt rejection st =
      ({ st with buffer := st.buffer ++ [⟨rejection.config.getD emptyConfig, st.nextD⟩],
                 dstates := setD st.dstates st.nextD .pending,
                 nextD := st.nextD + 1,
                 trace := st.trace ++ [Ev.broadcast
                   (if rejection.status = 400 then "event:auth-missingParameter"
                    else "event:auth-loginRequired") (.rej rejection)] },
       .promiseOf st.nextD) := by
  rcases hs with hs | hs
  · simp [responseError, hf, hi, hs, append, bcast]
  · have h400 : ¬(rejection.status = 400) := by rw [hs]; decide
    simp [responseError, hf, hi, hs, h400, append, bcast]

/-- responseError_frame: `responseError` never decreases the fresh
counter and never changes the state of a deferred that already existed. -/
theorem responseError_frame (filt : Rejection → Bool) (r : Rejection) (st : St) :
    st.nextD ≤ (responseError filt r st).1.nextD ∧
    ∀ d, d < st.nextD → (responseError filt r st).1.dstates d = st.dstates d := by
  simp only [responseError, append, bcast]
  split
  · exact ⟨le_rfl, fun d _ => rfl⟩
  · split
    · split
      · refine ⟨Nat.le_succ st.nextD, ?_⟩
        intro d hd
        show setD st.dstates st.nextD DState.pending d = st.dstates d
        simp only [setD]
        rw [if_neg (by omega)]
      · split
        · refine ⟨Nat.le_succ st.nextD, ?_⟩
          intro d hd
          show setD st.dstates st.nextD DState.pending d = st.dstates d
          simp only [setD]
          rw [if_neg (by omega)]
        · split
          · exact ⟨le_rfl, fun d _ => rfl⟩
          · exact ⟨le_rfl, fun d _ => rfl⟩
    · exact ⟨le_rfl, fun d _ => rfl⟩

/-- applySteps_frame: any sequence of further `responseError` calls
leaves the state of an already-allocated deferred unchanged. -/
theorem applySteps_frame (steps : List ((Rejection → Bool) × Rejection)) (st : St)
    (d : Nat) (h : d < st.nextD) :
    (applySteps steps st).dstates d = st.dstates d := by
  induction steps generalizing st with
  | nil => rfl
  | cons s ss ih =>
    have hfr := responseError_frame s.1 s.2 st
    rw [applySteps, ih _ (lt_of_lt_of_le h hfr.1), hfr.2 d h]

/-! Claim theorems. -/

/-- C2: for every failed response with status 400 or 401 that the
installed `responseErrorFilter` accepts and whose config does not have a
truthy `ignoreAuthModule`, `responseError` appends exactly one entry
(the config paired with a fresh deferred) to the buffer, broadcasts
exactly one notification carrying the rejection
(`event:auth-missingParameter` for 400, `event:auth-loginRequired` for
401), and returns the fresh deferred's promise, which is pending and
stays pending under any further sequence of (non-terminal)
`responseError` invocations. -/
theorem C2_park_400_401 (filt : Rejection → Bool) (rejection : Rejection) (st : St)
    (steps : List ((Rejection → Bool) × Rejection))
    (hf : filt rejection = true)
    (hi : truthy (rejection.config.getD emptyConfig).ignoreAuthModule = false)
    (hs : rejection.status = 400 ∨ rejection.status = 401) :
    (responseError filt rejection st).1.buffer
      = st.buffer ++ [⟨rejection.config.getD emptyConfig, st.nextD⟩] ∧
    (responseError filt rejection st).1.trace
      = st.trace ++ [Ev.broadcast
          (if rejection.status = 400 then "event:auth-missingParameter"
           else "event:auth-loginRequired") (.rej rejection)] ∧
    (responseError filt rejection st).2 = .promiseOf st.nextD ∧
    (responseError filt rejection st).1.dstates st.nextD = .pending ∧
    (applySteps steps (responseError filt rejection st).1).dstates st.nextD
      = .pending := by
  have hpark := responseError_park filt rejection st hf hi hs
  refine ⟨by rw [hpark], by rw [hpark], by rw [hpark], ?_, ?_⟩
  · rw [hpark]
    show setD st.dstates st.nextD DState.pending st.nextD = DState.pending
    simp [setD]
  · rw [hpark]
    rw [applySteps_frame _ _ _ (Nat.lt_succ_self st.nextD)]
    show setD st.dstates st.nextD DState.pending st.nextD = DState.pending
    simp [setD]

/-- C2 witness state: an empty buffer and a 400 rejection in scope. -/
def c2conf : Config := { tag := 2 }

/-- C2 witness rejection: status 400, in scope. -/
def c2rej : Rejection := { status := 400, config := some c2conf }

/-- C2 witness initial state. -/
def c2st : St := { buffer := [], dstates := fun _ => .pending, nextD := 0, trace := [] }

/-- C2 witness follow-up steps: one further in-scope 401 response. -/
def c2steps : List ((Rejection → Bool) × Rejection) :=
  [(fun _ => true, { status := 401, config := some c2conf })]

/-- C2 witness: the parking behaviour evaluated at a concrete in-scope
400 response against an empty buffer. -/
theorem C2_park_400_401_witness :
    (responseError (fun _ => true) c2rej c2st).1.buffer = [⟨c2conf, 0⟩] ∧
    (responseError (fun _ => true) c2rej c2st).1.trace
      = [Ev.broadcast "event:auth-missingParameter" (.rej c2rej)] ∧
    (responseError (fun _ => true) c2rej c2st).2 = .promiseOf 0 ∧
    (responseError (fun _ => true) c2rej c2st).1.dstates 0 = .pending ∧
    (applySteps c2steps (responseError (fun _ => true) c2rej c2st).1).dstates 0
      = .pending :=
  C2_park_400_401 (fun _ => true) c2rej c2st c2steps rfl rfl (Or.inl rfl)

/-- C3: `loginConfirmed data (some updater)` broadcasts one
`event:auth-loginConfirmed` notification carrying `data` and then issues
exactly one transport request per buffered entry, in insertion order,
each with config `updater` of the original config; the buffer is empty
immediately afterwards; and a second call on the now-empty buffer issues
no requests but still broadcasts the notification. -/
theorem C3_loginConfirmed_replays (data : JSVal) (updater : Config → Config) (st : St) :
    (loginConfirmed data (some updater) st).trace
      = st.trace ++ [Ev.broadcast "event:auth-loginConfirmed" (.dat data)]
          ++ st.buffer.map
              (fun e => Ev.httpIssue (updater e.config) e.deferred st.buffer) ∧
    (loginConfirmed data (some updater) st).buffer = [] ∧
    ∀ data2 updater2,
      (loginConfirmed data2 (some updater2) (loginConfirmed data (some updater) st)).trace
        = (loginConfirmed data (some updater) st).trace
            ++ [Ev.broadcast "event:auth-loginConfirmed" (.dat data2)] := by
  have h1 : loginConfirmed data (some updater) st
      = { st with buffer := [],
                  trace := st.trace
                    ++ [Ev.broadcast "event:auth-loginConfirmed" (.dat data)]
                    ++ st.buffer.map
                        (fun e => Ev.httpIssue (updater e.config) e.deferred st.buffer) } := by
    show retryAll updater (bcast "event:auth-loginConfirmed" (.dat data) st) = _
    rw [retryAll_spec]
    cases st with
    | mk b ds nd tr => simp [bcast, List.append_assoc]
  refine ⟨by rw [h1], by rw [h1], ?_⟩
  intro data2 updater2
  show (retryAll updater2
      (bcast "event:auth-loginConfirmed" (.dat data2)
        (loginConfirmed data (some updater) st))).trace = _
  rw [retryAll_spec]
  rw [h1]
  simp [bcast]

/-- C7: for every failed response whose effective config has a truthy
`ignoreAuthModule`, `responseError` leaves the state untouched (no
append, no broadcast) and passes the original rejection through, for
every installed filter and every status. -/
theorem C7_ignoreAuthModule_passthrough (filt : Rejection → Bool)
    (rejection : Rejection) (st : St)
    (hi : truthy (rejection.config.getD emptyConfig).ignoreAuthModule = true) :
    responseError filt rejection st = (st, .rejectedWith rejection) := by
  cases hfb : filt rejection
  · simp [responseError, hfb]
  · simp [responseError, hfb, hi]

/-- C7 witness rejection: status 401 with `ignoreAuthModule: true`. -/
def c7rej : Rejection :=
  { status := 401, config := some { ignoreAuthModule := .bool true, tag := 7 } }

/-- C7 witness initial state. -/
def c7st : St := { buffer := [], dstates := fun _ => .pending, nextD := 0, trace := [] }

/-- C7 witness: the opt-out pass-through evaluated at a concrete 401
response with `ignoreAuthModule: true` and an accepting filter. -/
theorem C7_ignoreAuthModule_passthrough_witness :
    truthy ((c7rej.config.getD emptyConfig).ignoreAuthModule) = true ∧
    responseError (fun _ => true) c7rej c7st = (c7st, .rejectedWith c7rej) :=
  ⟨rfl, C7_ignoreAuthModule_passthrough (fun _ => true) c7rej c7st rfl⟩

/-- C8: for every in-scope failed response (accepting filter, non-truthy
`ignoreAuthModule`): status 403 broadcasts exactly one
`event:auth-forbidden` notification carrying the rejection, appends
nothing, and passes the original rejection through; any status other
than 400, 401 and 403 passes the rejection through with no notification
and no buffering. -/
theorem C8_forbidden_and_passthrough (filt : Rejection → Bool)
    (rejection : Rejection) (st : St)
    (hf : filt rejection = true)
    (hi : truthy (rejection.config.getD emptyConfig).ignoreAuthModule = false) :
    (rejection.status = 403 →
      responseError filt rejection st
        = ({ st with trace := st.trace
              ++ [Ev.broadcast "event:auth-forbidden" (.rej rejection)] },
           .rejectedWith rejection)) ∧
    (rejection.status ≠ 400 → rejection.status ≠ 401 → rejection.status ≠ 403 →
      responseError filt rejection st = (st, .rejectedWith rejection)) := by
  constructor
  · intro h403
    have h400 : ¬(rejection.status = 400) := by rw [h403]; decide
    have h401 : ¬(rejection.status = 401) := by rw [h403]; decide
    simp [responseError, hf, hi, h400, h401, h403, bcast]
  · intro h400 h401 h403
    simp [responseError, hf, hi, h400, h401, h403]

/-- C8 witness rejection with status 403. -/
def c8rej : Rejection := { status := 403, config := some { tag := 8 } }

/-- C8 witness rejection with an unclassified status. -/
def c8rej2 : Rejection := { status := 500, config := some { tag := 8 } }

/-- C8 witness initial state. -/
def c8st : St := { buffer := [], dstates := fun _ => .pending, nextD := 0, trace := [] }

/-- C8 witness: the forbidden branch at a concrete 403 response and the
pass-through branch at a concrete 500 response. -/
theorem C8_forbidden_and_passthrough_witness :
    responseError (fun _ => true) c8rej c8st
      = ({ c8st with trace := [Ev.broadcast "event:auth-forbidden" (.rej c8rej)] },
         .rejectedWith c8rej) ∧
    responseError (fun _ => true) c8rej2 c8st = (c8st, .rejectedWith c8rej2) := by
  constructor
  · exact (C8_forbidden_and_passthrough (fun _ => true) c8rej c8st rfl rfl).1 rfl
  · exact (C8_forbidden_and_passthrough (fun _ => true) c8rej2 c8st rfl rfl).2
      (by decide) (by decide) (by decide)

/-- C4 counterexample state: one buffered entry with pending deferred 0. -/
def c4st : St :=
  { buffer := [⟨{ tag := 4 }, 0⟩], dstates := fun _ => .pending, nextD := 1, trace := [] }

/-- C4 counterexample: `loginCancelled` called with reason `false` — a
provided but falsy reason — abandons the buffered handle (it stays
pending) instead of rejecting it with the reason, because `rejectAll`
tests `if (reason)` by truthiness; this refutes the claim that a
provided reason always causes rejection. -/
theorem C4_counterexample :
    (loginCancelled .undef (.bool false) c4st).dstates 0 = .pending ∧
    ¬((loginCancelled .undef (.bool false) c4st).dstates 0
        = .rejected (.reasonV (.bool false))) := by
  decide

/-- C4 amended: for every call `loginCancelled data reason` over
pairwise-distinct pending entries: if `reason` is truthy, every buffered
handle is rejected with it in insertion order, the buffer is cleared,
and the rejections happen before the `event:auth-loginCancelled`
broadcast; if `reason` is falsy (in particular omitted, i.e.
`undefined`), the buffer is cleared without settling any handle and the
event is still broadcast. -/
theorem C4_amended (data reason : JSVal) (st : St)
    (hd : st.buffer.Pairwise (fun a b => a.deferred ≠ b.deferred))
    (hp : ∀ e ∈ st.buffer, st.dstates e.deferred = .pending) :
    (truthy reason = true →
      (loginCancelled data reason st).buffer = [] ∧
      (∀ e ∈ st.buffer, (loginCancelled data reason st).dstates e.deferred
          = .rejected (.reasonV reason)) ∧
      (loginCancelled data reason st).trace
        = st.trace ++ st.buffer.map (fun e => Ev.rejectEv e.deferred (.reasonV reason))
            ++ [Ev.broadcast "event:auth-loginCancelled" (.dat data)]) ∧
    (truthy reason = false →
      (loginCancelled data reason st).buffer = [] ∧
      (∀ d, (loginCancelled data reason st).dstates d = st.dstates d) ∧
      (loginCancelled data reason st).trace
        = st.trace ++ [Ev.broadcast "event:auth-loginCancelled" (.dat data)]) := by
  constructor
  · intro ht
    obtain ⟨hb, _, htr, _, hr⟩ := rejectAll_truthy reason st ht hd hp
    refine ⟨?_, ?_, ?_⟩
    · show (bcast _ _ (rejectAll reason st)).buffer = []
      simpa [bcast] using hb
    · intro e he
      show (bcast _ _ (rejectAll reason st)).dstates e.deferred = _
      simpa [bcast] using hr e he
    · show (bcast _ _ (rejectAll reason st)).trace = _
      simp [bcast, htr]
  · intro ht
    have h := rejectAll_falsy reason st ht
    refine ⟨?_, ?_, ?_⟩ <;> simp [loginCancelled, bcast, h]

/-- C4 witness state: two buffered entries with distinct pending
deferreds. -/
def c4stw : St :=
  { buffer := [⟨{ tag := 41 }, 0⟩, ⟨{ tag := 42 }, 1⟩],
    dstates := fun _ => .pending, nextD := 2, trace := [] }

/-- C4 witness: the amended behaviour at a concrete truthy reason (both
entries rejected in order before the broadcast) and at the omitted
reason (handle left pending). -/
theorem C4_amended_witness :
    (loginCancelled (.str "d") (.str "denied") c4stw).buffer = [] ∧
    (loginCancelled (.str "d") (.str "denied") c4stw).dstates 0
      = .rejected (.reasonV (.str "denied")) ∧
    (loginCancelled (.str "d") (.str "denied") c4stw).dstates 1
      = .rejected (.reasonV (.str "denied")) ∧
    (loginCancelled (.str "d") (.str "denied") c4stw).trace
      = [Ev.rejectEv 0 (.reasonV (.str "denied")),
         Ev.rejectEv 1 (.reasonV (.str "denied")),
         Ev.broadcast "event:auth-loginCancelled" (.dat (.str "d"))] ∧
    (loginCancelled (.str "d") .undef c4stw).dstates 0 = .pending := by
  have h := C4_amended (.str "d") (.str "denied") c4stw (by decide) (by decide)
  have h2 := C4_amended (.str "d") .undef c4stw (by decide) (by decide)
  exact ⟨(h.1 rfl).1,
    (h.1 rfl).2.1 ⟨{ tag := 41 }, 0⟩ (by decide),
    (h.1 rfl).2.1 ⟨{ tag := 42 }, 1⟩ (by decide),
    (h.1 rfl).2.2,
    (h2.2 rfl).2.1 0⟩

/-- C5 counterexample entry. -/
def c5entry : Entry := ⟨{ tag := 5 }, 0⟩

/-- C5 counterexample state: one buffered entry. -/
def c5st : St :=
  { buffer := [c5entry], dstates := fun _ => .pending, nextD := 1, trace := [] }

/-- C5 counterexample: `retryAll` initiates the transport call for the
single buffered entry while that entry is still present in the buffer —
the issue event records the non-empty buffer at the moment
`$http(config)` is invoked — refuting the claim that the buffer is
cleared before or atomically with initiating the outbound I/O. -/
theorem C5_counterexample :
    (retryAll (fun c => c) c5st).trace
      = [Ev.httpIssue { tag := 5 } 0 [c5entry]] ∧
    c5entry ∈ [c5entry] := by decide

/-- C5 amended: in `retryAll` the buffer is cleared only after the whole
replay loop, still within the same synchronous call: every transport
initiation for a drained entry happens while the original buffer
contents are still in place, and the buffer is empty when `retryAll`
returns. -/
theorem C5_amended (updater : Config → Config) (st : St) :
    (retryAll updater st).buffer = [] ∧
    (retryAll updater st).trace
      = st.trace ++ st.buffer.map
          (fun e => Ev.httpIssue (updater e.config) e.deferred st.buffer) := by
  rw [retryAll_spec]
  exact ⟨rfl, rfl⟩

/-- C6 counterexample state: one buffered entry. -/
def c6st : St :=
  { buffer := [⟨{ tag := 6 }, 0⟩], dstates := fun _ => .pending, nextD := 1, trace := [] }

/-- C6 counterexample: `retryAll` invoked with no updater (`undefined`)
on a non-empty buffer throws a `TypeError` to its caller, refuting the
claim that `retryAll` never throws for every buffer state and every
argument. -/
theorem C6_counterexample : throwsB (retryAllJS none c6st) = true := by decide

/-- C6 amended: `retryAll` never throws when its updater argument is a
function and `rejectAll` never throws for any argument; each buffered
entry's replay is issued against that entry's own deferred, and a
transport failure delivery rejects exactly that deferred with the failed
response, touching no other deferred — the failure is never surfaced to
the caller of `retryAll`. -/
theorem C6_amended (f : Config → Config) (reason : JSVal) (st : St) (d r : Nat) :
    retryAllJS (some f) st = .ok (retryAll f st) ∧
    rejectAllJS reason st = .ok (rejectAll reason st) ∧
    (∀ e ∈ st.buffer,
      Ev.httpIssue (f e.config) e.deferred st.buffer ∈ (retryAll f st).trace) ∧
    (st.dstates d = .pending →
      (deliver d (.failure r) st).dstates d = .rejected (.resp r)) ∧
    (∀ d2, d2 ≠ d → (deliver d (.failure r) st).dstates d2 = st.dstates d2) := by
  refine ⟨rfl, rfl, ?_, ?_, ?_⟩
  · intro e he
    rw [retryAll_spec]
    show Ev.httpIssue (f e.config) e.deferred st.buffer
      ∈ st.trace ++ st.buffer.map (fun e => Ev.httpIssue (f e.config) e.deferred st.buffer)
    exact List.mem_append_right _ (List.mem_map_of_mem _ he)
  · intro hp
    simp [deliver, doReject, hp, setD]
  · intro d2 hne
    by_cases hp : st.dstates d = DState.pending
    · simp [deliver, doReject, hp, setD, hne]
    · simp [deliver, doReject, hp]

/-- C6 witness state: one buffered entry. -/
def c6stw : St :=
  { buffer := [⟨{ tag := 61 }, 0⟩], dstates := fun _ => .pending, nextD := 1, trace := [] }

/-- C6 witness: the amended behaviour at a concrete buffer, a concrete
failing transport outcome and a concrete unrelated deferred. -/
theorem C6_amended_witness :
    retryAllJS (some (fun c => c)) c6stw = .ok (retryAll (fun c => c) c6stw) ∧
    rejectAllJS .undef c6stw = .ok (rejectAll .undef c6stw) ∧
    Ev.httpIssue { tag := 61 } 0 c6stw.buffer ∈ (retryAll (fun c => c) c6stw).trace ∧
    (deliver 0 (.failure 7) c6stw).dstates 0 = .rejected (.resp 7) ∧
    (deliver 0 (.failure 7) c6stw).dstates 1 = c6stw.dstates 1 := by
  have h := C6_amended (fun c => c) .undef c6stw 0 7
  exact ⟨h.1, h.2.1, h.2.2.1 ⟨{ tag := 61 }, 0⟩ (by decide),
    h.2.2.2.1 rfl, h.2.2.2.2 1 (by decide)⟩

/-- C9 counterexample state: one buffered entry. -/
def c9st : St :=
  { buffer := [⟨{ tag := 9 }, 3⟩], dstates := fun _ => .pending, nextD := 4, trace := [] }

/-- C9 counterexample: on a non-empty buffer, the buffer's `retryAll`
with no updater supplied throws a `TypeError`, while `retryAll` with the
identity updater returns normally — so the former does not behave as the
latter; the identity default lives in `loginConfirmed`, not in the
buffer's `retryAll`. -/
theorem C9_counterexample :
    throwsB (retryAllJS none c9st) = true ∧
    throwsB (retryAllJS (some (fun config => config)) c9st) = false := by decide

/-- C9 amended: the buffer's `retryAll` does not default its updater:
with no updater it throws on a non-empty buffer and coincides with the
identity updater only on an empty buffer; the defaulting to identity
happens in `loginConfirmed`, which with no updater behaves exactly as
with the identity updater. -/
theorem C9_amended (data : JSVal) (st : St) :
    loginConfirmed data none st
      = loginConfirmed data (some (fun config => config)) st ∧
    (st.buffer = [] →
      retryAllJS none st = .ok (retryAll (fun config => config) st)) ∧
    (st.buffer ≠ [] →
      retryAllJS none st = .error "TypeError: updater is not a function") := by
  refine ⟨rfl, ?_, ?_⟩
  · intro hb
    have h2 : retryAll (fun config => config) st = { st with buffer := [] } := by
      rw [retryAll_spec, hb]
      simp
    simp [retryAllJS, hb, h2]
  · intro hb
    cases hbuf : st.buffer with
    | nil => exact absurd hbuf hb
    | cons e es => simp [retryAllJS, hbuf]

/-- C9 witness empty-buffer state. -/
def c9ste : St := { buffer := [], dstates := fun _ => .pending, nextD := 0, trace := [] }

/-- C9 witness non-empty-buffer state. -/
def c9stn : St :=
  { buffer := [⟨{ tag := 91 }, 0⟩], dstates := fun _ => .pending, nextD := 1, trace := [] }

/-- C9 witness: the amended behaviour at a concrete non-empty buffer
(loginConfirmed defaulting; retryAll throwing) and at the empty
buffer. -/
theorem C9_amended_witness :
    loginConfirmed .null none c9stn
      = loginConfirmed .null (some (fun config => config)) c9stn ∧
    retryAllJS none c9ste = .ok (retryAll (fun config => config) c9ste) ∧
    retryAllJS none c9stn = .error "TypeError: updater is not a function" :=
  ⟨(C9_amended .null c9stn).1, (C9_amended .null c9ste).2.1 rfl,
   (C9_amended .null c9stn).2.2 (by decide)⟩

/-- C10: `rejectAll` decides between rejecting and abandoning by the
truthiness of its argument: undefined, null, false, 0 and the empty
string are all falsy; for every falsy reason the buffer is cleared
without settling any handle, and a truthy reason rejects every buffered
(pending, distinct) handle with it. -/
theorem C10_rejectAll_truthiness (reason : JSVal) (st : St)
    (hd : st.buffer.Pairwise (fun a b => a.deferred ≠ b.deferred))
    (hp : ∀ e ∈ st.buffer, st.dstates e.deferred = .pending) :
    (truthy .undef = false ∧ truthy .null = false ∧ truthy (.bool false) = false ∧
     truthy (.num 0) = false ∧ truthy (.str "") = false) ∧
    (truthy reason = false → rejectAll reason st = { st with buffer := [] }) ∧
    (truthy reason = true →
      (rejectAll reason st).buffer = [] ∧
      ∀ e ∈ st.buffer, (rejectAll reason st).dstates e.deferred
        = .rejected (.reasonV reason)) := by
  refine ⟨by decide, fun ht => rejectAll_falsy reason st ht, fun ht => ?_⟩
  obtain ⟨hb, _, _, _, hr⟩ := rejectAll_truthy reason st ht hd hp
  exact ⟨hb, hr⟩

/-- C10 witness state: one buffered entry with pending deferred 5. -/
def c10st : St :=
  { buffer := [⟨{ tag := 10 }, 5⟩], dstates := fun _ => .pending, nextD := 6, trace := [] }

/-- C10 witness: the truthiness dichotomy at the concrete falsy reason 0
(handle untouched, buffer cleared) and at a concrete truthy object
reason (handle rejected). -/
theorem C10_rejectAll_truthiness_witness :
    rejectAll (.num 0) c10st = { c10st with buffer := [] } ∧
    (rejectAll (.obj 1) c10st).buffer = [] ∧
    (rejectAll (.obj 1) c10st).dstates 5 = .rejected (.reasonV (.obj 1)) := by
  have h0 := C10_rejectAll_truthiness (.num 0) c10st (by decide) (by decide)
  have h1 := C10_rejectAll_truthiness (.obj 1) c10st (by decide) (by decide)
  exact ⟨h0.2.1 rfl, (h1.2.2 rfl).1,
    (h1.2.2 rfl).2 ⟨{ tag := 10 }, 5⟩ (by decide)⟩

/-- C1 counterexample first entry. -/
def c1e1 : Entry := ⟨{ tag := 1 }, 1⟩

/-- C1 counterexample entry appended mid-drain. -/
def c1e3 : Entry := ⟨{ tag := 3 }, 3⟩

/-- C1 counterexample updater: a JS updater whose call, while the drain
is processing the entry tagged 1, synchronously appends a new entry (a
failed response handled in the same tick appends via the shared
buffer). -/
def c1updater : Config → Config × List Entry :=
  fun c => if c.tag = 1 then (c, [c1e3]) else (c, [])

/-- C1 counterexample state: one buffered entry before the drain. -/
def c1st : St :=
  { buffer := [c1e1], dstates := fun _ => .pending, nextD := 10, trace := [] }

/-- C1 counterexample: an entry appended during a `retryAll` drain is
not present in the buffer after the drain completes — the loop iterates
the live buffer and the final `buffer = []` discards it — refuting the
claim that the drain uses a private snapshot leaving the new entry in
the buffer. -/
theorem C1_counterexample :
    (retryAllLive c1updater 10 0 c1st).map St.buffer = some [] ∧
    (retryAllLive c1updater 10 0 c1st).map (fun s => decide (c1e3 ∈ s.buffer))
      = some false := by decide

/-- C1 amended scenario entries: two drained entries and the entry
appended while the first is being processed. -/
def c1f1 : Entry := ⟨{ tag := 11 }, 1⟩

/-- C1 amended scenario second drained entry. -/
def c1f2 : Entry := ⟨{ tag := 12 }, 2⟩

/-- C1 amended scenario entry appended mid-drain. -/
def c1f3 : Entry := ⟨{ tag := 13 }, 3⟩

/-- C1 amended scenario updater: appends the third entry while the
first is being replayed. -/
def c1updater2 : Config → Config × List Entry :=
  fun c => if c.tag = 11 then (c, [c1f3]) else (c, [])

/-- C1 amended scenario state: two buffered entries before the drain. -/
def c1st2 : St :=
  { buffer := [c1f1, c1f2], dstates := fun _ => .pending, nextD := 10, trace := [] }

/-- C1 amended: `retryAll` drains the live buffer, not a private
snapshot: in the spec's scenario (two entries drained, a third appended
while the first is processed) the appended entry is not lost and not
double-replayed — it is picked up by the same drain and replayed exactly
once, after the original two and in order — but it does not remain in
the buffer, which is empty after the drain completes. -/
theorem C1_amended_live_drain :
    (retryAllLive c1updater2 10 0 c1st2).map St.buffer = some [] ∧
    (retryAllLive c1updater2 10 0 c1st2).map St.trace
      = some [Ev.httpIssue { tag := 11 } 1 [c1f1, c1f2, c1f3],
              Ev.httpIssue { tag := 12 } 2 [c1f1, c1f2, c1f3],
              Ev.httpIssue { tag := 13 } 3 [c1f1, c1f2, c1f3]] := by decide

end HttpAuth
